import Mathlib

/-!
# CreativaHub — verification of the handler layer

Shallow embedding of the CreativaHub LMS server handlers
(src/server/src/handlers and the unnamed server sources) over an explicit
relational store.  Machine-level details that the handlers do not observe
(connection pooling, SQL text) are elided; the data model, the precondition
chains, the row writes and the numeric string conversions are translated
directly from the TypeScript source.

Conventions of the embedding:
* timestamps are abstract `Nat` ticks; `Store.now` models `new Date()` and
  the store's `defaultNow()` column defaults;
* serial primary keys are modelled by per-table counters in the store;
* every handler has type `Store → Input → Store × Except DbError Out`:
  the returned store is the post-state of the call (JS handlers throw, which
  leaves all previously issued writes in place — none of the handlers writes
  before its last step, and the embedding mirrors the actual write placement);
* a Postgres `numeric(5,2)` column holds a scale-2 decimal; its wire format
  (the string drizzle hands back) is modelled structurally by `DecString`,
  an integer part plus the list of fractional digits.
-/

/-! ## Enumerations (src/unnamed/part_009 pgEnum declarations) -/

inductive UserRole
  | student
  | teacher
  | admin
deriving Repr, DecidableEq

inductive CourseStatus
  | draft
  | published
  | archived
deriving Repr, DecidableEq

inductive AssignmentStatus
  | draft
  | published
  | closed
deriving Repr, DecidableEq

inductive SubmissionStatus
  | draft
  | submitted
  | graded
deriving Repr, DecidableEq

/-! ## Decimal strings for `numeric(5,2)` columns

JS stores a score with `input.score.toString()` and reads it back with
`parseFloat(submission.score)`.  The abstract value of a score is a number
of hundredths (`Nat`); the string in the database is modelled by its
integer part and fractional digit list. -/

/-- A decimal string such as `"87.33"` (`intPart = 87`, `fracDigits = [3, 3]`)
or `"87.3"` (`fracDigits = [3]`) or `"87"` (`fracDigits = []`).  Such a string
is never the empty string (so it is always truthy in JS). -/
structure DecString where
  intPart : Nat
  fracDigits : List Nat
deriving Repr, DecidableEq

/-- JS `Number.prototype.toString` on a scale-2 decimal value of `n`
hundredths: shortest decimal representation, trailing fractional zeros
dropped (`8733 ↦ "87.33"`, `8730 ↦ "87.3"`, `8700 ↦ "87"`). -/
def jsNumToString (n : Nat) : DecString :=
  if n % 100 = 0 then ⟨n / 100, []⟩
  else if n % 10 = 0 then ⟨n / 100, [n % 100 / 10]⟩
  else ⟨n / 100, [n % 100 / 10, n % 10]⟩

/-- The string a `numeric(5,2)` column hands back for a stored decimal:
Postgres renders with exactly two fractional digits (`"87.30"`, `"0.00"`).
Inputs written by the handlers have at most two fractional digits, so
padding with zeros is exact. -/
def pgNumeric2 (d : DecString) : DecString :=
  ⟨d.intPart, (d.fracDigits ++ [0, 0]).take 2⟩

/-- JS `parseFloat` on a decimal string with at most two fractional digits,
expressed in hundredths. -/
def parseFloatCents (d : DecString) : Nat :=
  d.intPart * 100 + 10 * d.fracDigits.headD 0 + (d.fracDigits.drop 1).headD 0

/-- JS `x || null` for `x : string | null | undefined`: `null`, `undefined`
and the (falsy) empty string all become `null`. -/
def jsOrNull : Option String → Option String
  | some "" => none
  | some s => some s
  | none => none

/-! ## Row types (src/unnamed/part_009 table declarations) -/

structure User where
  id : Nat
  email : String
  password_hash : String
  full_name : String
  role : UserRole
  avatar_url : Option String
  is_active : Bool
  created_at : Nat
  updated_at : Nat
deriving Repr, DecidableEq

structure Course where
  id : Nat
  title : String
  description : Option String
  teacher_id : Nat
  thumbnail_url : Option String
  status : CourseStatus
  created_at : Nat
  updated_at : Nat
deriving Repr, DecidableEq

structure CourseEnrollment where
  id : Nat
  course_id : Nat
  student_id : Nat
  enrolled_at : Nat
deriving Repr, DecidableEq

structure LearningMaterial where
  id : Nat
  course_id : Nat
  title : String
  description : Option String
  content_url : Option String
  file_url : Option String
  material_type : String
  order_index : Nat
  created_at : Nat
  updated_at : Nat
deriving Repr, DecidableEq

structure Assignment where
  id : Nat
  course_id : Nat
  title : String
  description : Option String
  due_date : Option Nat
  max_score : DecString
  status : AssignmentStatus
  created_at : Nat
  updated_at : Nat
deriving Repr, DecidableEq

/-- A row of `assignment_submissions`; `score` is the `numeric(5,2)` column
in its string wire format (`None` = SQL NULL). -/
structure AssignmentSubmission where
  id : Nat
  assignment_id : Nat
  student_id : Nat
  submission_url : Option String
  submission_text : Option String
  score : Option DecString
  feedback : Option String
  status : SubmissionStatus
  submitted_at : Option Nat
  graded_at : Option Nat
  created_at : Nat
  updated_at : Nat
deriving Repr, DecidableEq

structure PortfolioProject where
  id : Nat
  student_id : Nat
  title : String
  description : Option String
  project_url : Option String
  thumbnail_url : Option String
  tags : Option String
  is_public : Bool
  created_at : Nat
  updated_at : Nat
deriving Repr, DecidableEq

/-- The API-level submission handed back to callers: numeric fields converted
back to numbers, `submission.score ? parseFloat(submission.score) : null`
(a stored score string is never empty, hence never falsy). -/
structure ApiSubmission where
  id : Nat
  assignment_id : Nat
  student_id : Nat
  submission_url : Option String
  submission_text : Option String
  score : Option Nat
  feedback : Option String
  status : SubmissionStatus
  submitted_at : Option Nat
  graded_at : Option Nat
  created_at : Nat
  updated_at : Nat
deriving Repr, DecidableEq

def toApiSubmission (r : AssignmentSubmission) : ApiSubmission :=
  { id := r.id
    assignment_id := r.assignment_id
    student_id := r.student_id
    submission_url := r.submission_url
    submission_text := r.submission_text
    score := r.score.map parseFloatCents
    feedback := r.feedback
    status := r.status
    submitted_at := r.submitted_at
    graded_at := r.graded_at
    created_at := r.created_at
    updated_at := r.updated_at }

/-! ## The store -/

/-- The relational store: one list per table, a serial counter per table,
and the current clock tick (`new Date()` / `defaultNow()`). -/
structure Store where
  users : List User
  courses : List Course
  enrollments : List CourseEnrollment
  materials : List LearningMaterial
  assignments : List Assignment
  submissions : List AssignmentSubmission
  portfolios : List PortfolioProject
  nextUserId : Nat
  nextCourseId : Nat
  nextEnrollmentId : Nat
  nextMaterialId : Nat
  nextAssignmentId : Nat
  nextSubmissionId : Nat
  nextPortfolioId : Nat
  now : Nat
deriving Repr, DecidableEq

/-- The error taxonomy raised by the handlers.  Each constructor corresponds
to one distinct `throw new Error(...)` site (the message is noted at the
constructor). -/
inductive DbError
  | studentNotFound          -- 'Student not found'
  | invalidStudentRole       -- 'User is not a student'
  | studentInactive          -- 'Student account is inactive' / 'not active'
  | courseNotFound           -- 'Course not found'
  | courseNotEnrollable      -- 'Course is not available for enrollment'
  | alreadyEnrolled          -- 'Student is already enrolled in this course'
  | assignmentNotFound       -- 'Assignment not found'
  | assignmentNotPublished   -- 'Assignment is not published'
  | studentNotEnrolled       -- 'Student is not enrolled in the course'
  | submissionAlreadyExists  -- 'Submission already exists for this assignment'
  | submissionNotFound (id : Nat)  -- 'Assignment submission with id ... not found'
  | teacherNotFound          -- 'Teacher not found'
  | invalidTeacherRole       -- 'Only teachers and admins can create courses'
  | teacherInactive          -- 'Teacher account is not active'
  | userNotFound (id : Nat)      -- NotFound("User", id), spec section 4.1
  | courseUpdateNotFound (id : Nat)  -- NotFound("Course", id), spec section 4.1
  | duplicateEmail           -- DuplicateEmail, spec section 4.1
deriving Repr, DecidableEq

/-! ## Input types (src/unnamed/part_007, schema.ts zod input schemas) -/

structure EnrollInCourseInput where
  course_id : Nat
  student_id : Nat
deriving Repr, DecidableEq

structure CreateAssignmentSubmissionInput where
  assignment_id : Nat
  student_id : Nat
  submission_url : Option String := none
  submission_text : Option String := none
deriving Repr, DecidableEq

/-- `gradeAssignmentSubmissionInputSchema`; `score` is a scale-2 decimal
value in hundredths (`z.number().min(0)`). -/
structure GradeAssignmentSubmissionInput where
  id : Nat
  score : Nat
  feedback : Option String := none
deriving Repr, DecidableEq

structure CreateCourseInput where
  title : String
  description : Option String := none
  teacher_id : Nat
  thumbnail_url : Option String := none
  status : Option CourseStatus := none
deriving Repr, DecidableEq

structure CreateLearningMaterialInput where
  course_id : Nat
  title : String
  description : Option String := none
  content_url : Option String := none
  file_url : Option String := none
  material_type : String
  order_index : Nat
deriving Repr, DecidableEq

structure CreateAssignmentInput where
  course_id : Nat
  title : String
  description : Option String := none
  due_date : Option Nat := none
  max_score : Nat
  status : Option AssignmentStatus := none
deriving Repr, DecidableEq

structure CreatePortfolioProjectInput where
  student_id : Nat
  title : String
  description : Option String := none
  project_url : Option String := none
  thumbnail_url : Option String := none
  tags : Option String := none
  is_public : Option Bool := none
deriving Repr, DecidableEq

structure CreateUserInput where
  email : String
  password : String
  full_name : String
  role : UserRole
  avatar_url : Option String := none
deriving Repr, DecidableEq

/-- `updateUserInputSchema`: every field but `id` optional; `avatar_url` is
nullable and optional (`Option (Option String)`). -/
structure UpdateUserInput where
  id : Nat
  email : Option String := none
  full_name : Option String := none
  avatar_url : Option (Option String) := none
  is_active : Option Bool := none
deriving Repr, DecidableEq

structure UpdateCourseInput where
  id : Nat
  title : Option String := none
  description : Option (Option String) := none
  thumbnail_url : Option (Option String) := none
  status : Option CourseStatus := none
deriving Repr, DecidableEq

structure LoginInput where
  email : String
  password : String
deriving Repr, DecidableEq

/-! ## Handlers translated from the source -/

/-- `enrollInCourse` (src/unnamed/part_005): validate student exists, has the
student role and is active; validate course exists and is published; reject a
duplicate `(course_id, student_id)` enrollment; insert one enrollment row. -/
def enrollInCourse (s : Store) (input : EnrollInCourseInput) :
    Store × Except DbError CourseEnrollment :=
  match s.users.filter (fun u => u.id == input.student_id) with
  | [] => (s, Except.error DbError.studentNotFound)
  | student :: _ =>
    if student.role ≠ UserRole.student then (s, Except.error DbError.invalidStudentRole)
    else if student.is_active = false then (s, Except.error DbError.studentInactive)
    else
      match s.courses.filter (fun c => c.id == input.course_id) with
      | [] => (s, Except.error DbError.courseNotFound)
      | course :: _ =>
        if course.status ≠ CourseStatus.published then
          (s, Except.error DbError.courseNotEnrollable)
        else if 0 < (s.enrollments.filter (fun e =>
            e.course_id == input.course_id && e.student_id == input.student_id)).length then
          (s, Except.error DbError.alreadyEnrolled)
        else
          let row : CourseEnrollment :=
            { id := s.nextEnrollmentId
              course_id := input.course_id
              student_id := input.student_id
              enrolled_at := s.now }
          ({ s with enrollments := s.enrollments ++ [row],
                    nextEnrollmentId := s.nextEnrollmentId + 1 },
           Except.ok row)

/-- `createAssignmentSubmission`
(src/server/src/handlers/create_assignment_submission.ts): validate the
assignment exists and is published, the student is enrolled in its course,
and no submission for the pair exists yet; insert one submission row with
status `draft` and the numeric score column untouched (NULL). -/
def createAssignmentSubmission (s : Store) (input : CreateAssignmentSubmissionInput) :
    Store × Except DbError ApiSubmission :=
  match s.assignments.filter (fun a => a.id == input.assignment_id) with
  | [] => (s, Except.error DbError.assignmentNotFound)
  | assignment :: _ =>
    if assignment.status ≠ AssignmentStatus.published then
      (s, Except.error DbError.assignmentNotPublished)
    else if (s.enrollments.filter (fun e =>
        e.course_id == assignment.course_id && e.student_id == input.student_id)).length = 0 then
      (s, Except.error DbError.studentNotEnrolled)
    else if 0 < (s.submissions.filter (fun x =>
        x.assignment_id == input.assignment_id && x.student_id == input.student_id)).length then
      (s, Except.error DbError.submissionAlreadyExists)
    else
      let row : AssignmentSubmission :=
        { id := s.nextSubmissionId
          assignment_id := input.assignment_id
          student_id := input.student_id
          submission_url := jsOrNull input.submission_url
          submission_text := jsOrNull input.submission_text
          score := none
          feedback := none
          status := SubmissionStatus.draft
          submitted_at := none
          graded_at := none
          created_at := s.now
          updated_at := s.now }
      ({ s with submissions := s.submissions ++ [row],
                nextSubmissionId := s.nextSubmissionId + 1 },
       Except.ok (toApiSubmission row))

/-- The `.set({...})` payload of `gradeAssignmentSubmission`
(src/unnamed/part_003): score stored through `input.score.toString()` into
the `numeric(5,2)` column, `feedback: input.feedback || null`, status
`graded`, `graded_at` and `updated_at` set to now. -/
def gradeSet (input : GradeAssignmentSubmissionInput) (now : Nat)
    (x : AssignmentSubmission) : AssignmentSubmission :=
  { x with score := some (pgNumeric2 (jsNumToString input.score))
           feedback := jsOrNull input.feedback
           status := SubmissionStatus.graded
           graded_at := some now
           updated_at := now }

/-- `gradeAssignmentSubmission` (src/unnamed/part_003): a single UPDATE of
every row matching the id (run before the emptiness check — with no match it
modifies nothing), then an error if no row was returned, otherwise the
updated row with its score parsed back to a number. -/
def gradeAssignmentSubmission (s : Store) (input : GradeAssignmentSubmissionInput) :
    Store × Except DbError ApiSubmission :=
  let s' : Store :=
    { s with submissions := s.submissions.map (fun x =>
        if x.id == input.id then gradeSet input s.now x else x) }
  match (s.submissions.filter (fun x => x.id == input.id)).map (gradeSet input s.now) with
  | [] => (s', Except.error (DbError.submissionNotFound input.id))
  | sub :: _ => (s', Except.ok (toApiSubmission sub))

/-- `createCourse` (src/unnamed/part_004): teacher must exist, have role
teacher or admin, and be active; insert one course row, status defaulting
to `draft`. -/
def createCourse (s : Store) (input : CreateCourseInput) :
    Store × Except DbError Course :=
  match s.users.filter (fun u => u.id == input.teacher_id) with
  | [] => (s, Except.error DbError.teacherNotFound)
  | teacher :: _ =>
    if teacher.role ≠ UserRole.teacher ∧ teacher.role ≠ UserRole.admin then
      (s, Except.error DbError.invalidTeacherRole)
    else if teacher.is_active = false then (s, Except.error DbError.teacherInactive)
    else
      let row : Course :=
        { id := s.nextCourseId
          title := input.title
          description := jsOrNull input.description
          teacher_id := input.teacher_id
          thumbnail_url := jsOrNull input.thumbnail_url
          status := input.status.getD CourseStatus.draft
          created_at := s.now
          updated_at := s.now }
      ({ s with courses := s.courses ++ [row], nextCourseId := s.nextCourseId + 1 },
       Except.ok row)

/-- `createLearningMaterial`
(src/server/src/handlers/create_learning_material.ts): course must exist;
insert one material row (optional fields kept as given,
`!== undefined ? x : null`). -/
def createLearningMaterial (s : Store) (input : CreateLearningMaterialInput) :
    Store × Except DbError LearningMaterial :=
  match s.courses.filter (fun c => c.id == input.course_id) with
  | [] => (s, Except.error DbError.courseNotFound)
  | _ :: _ =>
    let row : LearningMaterial :=
      { id := s.nextMaterialId
        course_id := input.course_id
        title := input.title
        description := input.description
        content_url := input.content_url
        file_url := input.file_url
        material_type := input.material_type
        order_index := input.order_index
        created_at := s.now
        updated_at := s.now }
    ({ s with materials := s.materials ++ [row], nextMaterialId := s.nextMaterialId + 1 },
     Except.ok row)

/-- `createPortfolioProject`
(src/server/src/handlers/create_portfolio_project.ts): student must exist,
have role student and be active; insert one portfolio row
(`is_public: input.is_public ?? false`). -/
def createPortfolioProject (s : Store) (input : CreatePortfolioProjectInput) :
    Store × Except DbError PortfolioProject :=
  match s.users.filter (fun u => u.id == input.student_id) with
  | [] => (s, Except.error DbError.studentNotFound)
  | student :: _ =>
    if student.role ≠ UserRole.student then (s, Except.error DbError.invalidStudentRole)
    else if student.is_active = false then (s, Except.error DbError.studentInactive)
    else
      let row : PortfolioProject :=
        { id := s.nextPortfolioId
          student_id := input.student_id
          title := input.title
          description := jsOrNull input.description
          project_url := jsOrNull input.project_url
          thumbnail_url := jsOrNull input.thumbnail_url
          tags := jsOrNull input.tags
          is_public := input.is_public.getD false
          created_at := s.now
          updated_at := s.now }
      ({ s with portfolios := s.portfolios ++ [row],
                nextPortfolioId := s.nextPortfolioId + 1 },
       Except.ok row)

/-- `authenticateUser` (src/unnamed/part_007): look the user up by email,
return `null` when absent, inactive, or when the sha256 hash of the supplied
password differs from the stored hash; otherwise return the user row field by
field.  The hash function is passed explicitly (its choice never matters to
the control flow, only the comparison does); the JS handler never returns an
error for a failed login, which the `Option User` result type reflects. -/
def authenticateUser (hashFn : String → String) (s : Store) (input : LoginInput) :
    Option User :=
  match s.users.filter (fun u => u.email == input.email) with
  | [] => none
  | user :: _ =>
    if user.is_active = false then none
    else if hashFn input.password ≠ user.password_hash then none
    else some user

/-- `getAssignmentSubmissions`
(src/server/src/handlers/get_assignment_submissions.ts): all submissions of
one assignment, scores parsed back to numbers. -/
def getAssignmentSubmissions (s : Store) (assignmentId : Nat) : List ApiSubmission :=
  (s.submissions.filter (fun x => x.assignment_id == assignmentId)).map toApiSubmission

/-- `getStudentSubmissions`
(src/server/src/handlers/get_assignment_submissions.ts): all submissions of
one student, scores parsed back to numbers. -/
def getStudentSubmissions (s : Store) (studentId : Nat) : List ApiSubmission :=
  (s.submissions.filter (fun x => x.student_id == studentId)).map toApiSubmission

/-! ## Dashboard aggregation (src/server/src/handlers/get_dashboard_data.ts) -/

/-- The role-dependent dashboard record; absent fields are `none`. -/
structure DashboardData where
  totalUsers : Option Nat := none
  totalCourses : Option Nat := none
  totalStudents : Option Nat := none
  totalTeachers : Option Nat := none
  enrolledCourses : Option Nat := none
  activeAssignments : Option Nat := none
  completedAssignments : Option Nat := none
  portfolioProjects : Option Nat := none
  teachingCourses : Option Nat := none
  totalAssignments : Option Nat := none
  pendingSubmissions : Option Nat := none
deriving Repr, DecidableEq

/-- Row count of an SQL inner join: for each left row, the number of matching
right rows, summed. -/
def joinCount (xs : List α) (m : α → Nat) : Nat :=
  (xs.map m).sum

/-- `getAdminDashboardData`: four global COUNT queries, none scoped by the
calling user. -/
def getAdminDashboardData (s : Store) : DashboardData :=
  { totalUsers := some s.users.length
    totalCourses := some s.courses.length
    totalStudents := some (s.users.filter (fun u => u.role == UserRole.student)).length
    totalTeachers := some (s.users.filter (fun u => u.role == UserRole.teacher)).length }

/-- `getTeacherDashboardData`: courses taught, assignments joined through the
teacher's courses, submitted-but-ungraded submissions joined through them. -/
def getTeacherDashboardData (s : Store) (userId : Nat) : DashboardData :=
  { teachingCourses := some (s.courses.filter (fun c => c.teacher_id == userId)).length
    totalAssignments := some (joinCount s.assignments (fun a =>
      (s.courses.filter (fun c => a.course_id == c.id && c.teacher_id == userId)).length))
    pendingSubmissions := some (joinCount s.submissions (fun x =>
      if x.status == SubmissionStatus.submitted then
        joinCount s.assignments (fun a =>
          if x.assignment_id == a.id then
            (s.courses.filter (fun c => a.course_id == c.id && c.teacher_id == userId)).length
          else 0)
      else 0)) }

/-- `getStudentDashboardData`: enrollments, published assignments joined
through the student's enrollments, graded submissions, portfolio entries. -/
def getStudentDashboardData (s : Store) (userId : Nat) : DashboardData :=
  { enrolledCourses := some (s.enrollments.filter (fun e => e.student_id == userId)).length
    activeAssignments := some (joinCount s.assignments (fun a =>
      if a.status == AssignmentStatus.published then
        (s.enrollments.filter (fun e =>
          a.course_id == e.course_id && e.student_id == userId)).length
      else 0))
    completedAssignments := some (s.submissions.filter (fun x =>
      x.student_id == userId && x.status == SubmissionStatus.graded)).length
    portfolioProjects := some (s.portfolios.filter (fun p => p.student_id == userId)).length }

/-- `getDashboardData`: dispatch on the caller's role. -/
def getDashboardData (s : Store) (userId : Nat) (role : UserRole) : DashboardData :=
  match role with
  | UserRole.admin => getAdminDashboardData s
  | UserRole.teacher => getTeacherDashboardData s userId
  | UserRole.student => getStudentDashboardData s userId

/-! ## Handlers modelled from the spec

The repository ships only placeholder declarations for `createAssignment`,
`updateUser`, `updateCourse` and `createUser` (each file says "This is a
placeholder declaration! Real code should be implemented here."); the spec's
section 9 instructs readers to treat such stubs as non-existent.  The
following definitions model the missing handler bodies from the spec's own
words (sections 3, 4.1) and the schema defaults of part_009. -/

/-- Modelled from the spec: the real `createAssignment` handler is missing
from the source (src/server/src/handlers/create_assignment.ts holds only a
placeholder).  Spec section 4.1: "CreateAssignment: course_id must exist →
CourseNotFound.  No teacher-ownership check is enforced at this layer."
Row defaults follow the schema: status defaults to `draft`; `max_score` is
stored in the `numeric(5,2)` column. -/
def createAssignment (s : Store) (input : CreateAssignmentInput) :
    Store × Except DbError Assignment :=
  match s.courses.filter (fun c => c.id == input.course_id) with
  | [] => (s, Except.error DbError.courseNotFound)
  | _ :: _ =>
    let row : Assignment :=
      { id := s.nextAssignmentId
        course_id := input.course_id
        title := input.title
        description := input.description
        due_date := input.due_date
        max_score := pgNumeric2 (jsNumToString input.max_score)
        status := input.status.getD AssignmentStatus.draft
        created_at := s.now
        updated_at := s.now }
    ({ s with assignments := s.assignments ++ [row],
              nextAssignmentId := s.nextAssignmentId + 1 },
     Except.ok row)

/-- Modelled from the spec: the partial update applied by the missing
`updateUser` handler.  Spec section 4.1: "only fields present in the input
are modified, others retain prior values; updated_at always refreshed
regardless of which fields changed."  The input schema (schema.ts) has no
role, password or created_at field, so those can never change. -/
def applyUserUpdate (now : Nat) (input : UpdateUserInput) (u : User) : User :=
  { u with email := input.email.getD u.email
           full_name := input.full_name.getD u.full_name
           avatar_url := input.avatar_url.getD u.avatar_url
           is_active := input.is_active.getD u.is_active
           updated_at := now }

/-- Modelled from the spec: the real `updateUser` handler is missing from
the source (src/server/src/handlers/update_user.ts holds only a
placeholder).  Spec section 4.1: target id must exist → NotFound("User", id);
partial-field semantics; `updated_at` always refreshed. -/
def updateUser (s : Store) (input : UpdateUserInput) :
    Store × Except DbError User :=
  match s.users.filter (fun u => u.id == input.id) with
  | [] => (s, Except.error (DbError.userNotFound input.id))
  | u :: _ =>
    ({ s with users := s.users.map (fun x =>
        if x.id == input.id then applyUserUpdate s.now input x else x) },
     Except.ok (applyUserUpdate s.now input u))

/-- Modelled from the spec: the partial update applied by the missing
`updateCourse` handler; the input schema has no teacher_id or created_at
field, so those can never change. -/
def applyCourseUpdate (now : Nat) (input : UpdateCourseInput) (c : Course) : Course :=
  { c with title := input.title.getD c.title
           description := input.description.getD c.description
           thumbnail_url := input.thumbnail_url.getD c.thumbnail_url
           status := input.status.getD c.status
           updated_at := now }

/-- Modelled from the spec: the real `updateCourse` handler is missing from
the source (src/server/src/handlers/update_course.ts holds only a
placeholder).  Spec section 4.1: target id must exist →
NotFound("Course", id); partial-field semantics; `updated_at` always
refreshed. -/
def updateCourse (s : Store) (input : UpdateCourseInput) :
    Store × Except DbError Course :=
  match s.courses.filter (fun c => c.id == input.id) with
  | [] => (s, Except.error (DbError.courseUpdateNotFound input.id))
  | c :: _ =>
    ({ s with courses := s.courses.map (fun x =>
        if x.id == input.id then applyCourseUpdate s.now input x else x) },
     Except.ok (applyCourseUpdate s.now input c))

/-- Modelled from the spec: the real `createUser` handler is missing from
the source (only its tRPC registration and tests exist).  Spec section 4.1:
"CreateUser: email must be unique → DuplicateEmail"; the stored credential
is the hash of the supplied password (hash function passed explicitly, as
for `authenticateUser`). -/
def createUser (hashFn : String → String) (s : Store) (input : CreateUserInput) :
    Store × Except DbError User :=
  if 0 < (s.users.filter (fun u => u.email == input.email)).length then
    (s, Except.error DbError.duplicateEmail)
  else
    let row : User :=
      { id := s.nextUserId
        email := input.email
        password_hash := hashFn input.password
        full_name := input.full_name
        role := input.role
        avatar_url := jsOrNull input.avatar_url
        is_active := true
        created_at := s.now
        updated_at := s.now }
    ({ s with users := s.users ++ [row], nextUserId := s.nextUserId + 1 },
     Except.ok row)

/-! ## Declared store constraints (src/unnamed/part_009)

The drizzle schema declares, per table: a serial primary key, NOT NULL
columns (structural in the embedding), foreign key references, and exactly
one unique index — `users.email` (`text('email').unique().notNull()`).
Neither `course_enrollments` nor `assignment_submissions` declares a unique
index on its pair of foreign keys. -/

/-- A store state satisfies every constraint declared in the drizzle schema:
primary keys are unique per table, `users.email` is unique, and every
declared foreign key resolves.  This predicate holds exactly the constraints
part_009 declares — no more. -/
def schemaAccepts (s : Store) : Prop :=
  (s.users.map (fun u => u.id)).Nodup ∧
  (s.users.map (fun u => u.email)).Nodup ∧
  (s.courses.map (fun c => c.id)).Nodup ∧
  (∀ c ∈ s.courses, ∃ u ∈ s.users, u.id = c.teacher_id) ∧
  (s.enrollments.map (fun e => e.id)).Nodup ∧
  (∀ e ∈ s.enrollments, ∃ c ∈ s.courses, c.id = e.course_id) ∧
  (∀ e ∈ s.enrollments, ∃ u ∈ s.users, u.id = e.student_id) ∧
  (s.materials.map (fun m => m.id)).Nodup ∧
  (∀ m ∈ s.materials, ∃ c ∈ s.courses, c.id = m.course_id) ∧
  (s.assignments.map (fun a => a.id)).Nodup ∧
  (∀ a ∈ s.assignments, ∃ c ∈ s.courses, c.id = a.course_id) ∧
  (s.submissions.map (fun x => x.id)).Nodup ∧
  (∀ x ∈ s.submissions, ∃ a ∈ s.assignments, a.id = x.assignment_id) ∧
  (∀ x ∈ s.submissions, ∃ u ∈ s.users, u.id = x.student_id) ∧
  (s.portfolios.map (fun p => p.id)).Nodup ∧
  (∀ p ∈ s.portfolios, ∃ u ∈ s.users, u.id = p.student_id)

instance (s : Store) : Decidable (schemaAccepts s) := by
  unfold schemaAccepts; infer_instance

/-! ## Concrete stores used in scenarios, witnesses and counterexamples -/

/-- A freshly created empty store. -/
def emptyStore : Store :=
  { users := [], courses := [], enrollments := [], materials := [],
    assignments := [], submissions := [], portfolios := [],
    nextUserId := 1, nextCourseId := 1, nextEnrollmentId := 1,
    nextMaterialId := 1, nextAssignmentId := 1, nextSubmissionId := 1,
    nextPortfolioId := 1, now := 0 }

/-- An active student row, id 1. -/
def sampleStudent : User :=
  { id := 1, email := "student@test.com", password_hash := "h1",
    full_name := "Student One", role := UserRole.student,
    avatar_url := none, is_active := true, created_at := 0, updated_at := 0 }

/-- A published course row, id 10. -/
def sampleCourse : Course :=
  { id := 10, title := "Course Ten", description := none, teacher_id := 1,
    thumbnail_url := none, status := CourseStatus.published,
    created_at := 0, updated_at := 0 }

/-- A store ready for an enrollment: one active student, one published
course, no enrollments yet. -/
def enrollReadyStore : Store :=
  { emptyStore with users := [sampleStudent], courses := [sampleCourse],
                    nextUserId := 2, nextCourseId := 11, now := 5 }

/-- A draft submission row, id 1, for assignment 5 by student 1. -/
def sampleSubmission : AssignmentSubmission :=
  { id := 1, assignment_id := 5, student_id := 1,
    submission_url := none, submission_text := some "my work",
    score := none, feedback := none, status := SubmissionStatus.draft,
    submitted_at := none, graded_at := none, created_at := 2, updated_at := 2 }

/-- A store holding one ungraded submission, id 1. -/
def gradeReadyStore : Store :=
  { emptyStore with submissions := [sampleSubmission],
                    nextSubmissionId := 2, now := 7 }

/-- The only user of `adminOnlyStore`. -/
def sampleAdmin : User :=
  { id := 1, email := "admin@test.com", password_hash := "h2",
    full_name := "Admin", role := UserRole.admin,
    avatar_url := none, is_active := true, created_at := 0, updated_at := 0 }

/-- A store empty except for the calling admin (spec scenario E). -/
def adminOnlyStore : Store :=
  { emptyStore with users := [sampleAdmin], nextUserId := 2 }

/-- A published assignment row, id 5, on course 10. -/
def sampleAssignment : Assignment :=
  { id := 5, course_id := 10, title := "Assignment Five", description := none,
    due_date := none, max_score := pgNumeric2 (jsNumToString 10000),
    status := AssignmentStatus.published, created_at := 0, updated_at := 0 }

/-- A store state reachable when the application-level duplicate check is
raced: two enrollment rows and two submission rows each sharing their
foreign-key pair, with every constraint part_009 declares satisfied. -/
def racedStore : Store :=
  { emptyStore with
      users := [sampleStudent]
      courses := [sampleCourse]
      assignments := [sampleAssignment]
      enrollments :=
        [ { id := 1, course_id := 10, student_id := 1, enrolled_at := 3 },
          { id := 2, course_id := 10, student_id := 1, enrolled_at := 3 } ]
      submissions :=
        [ { sampleSubmission with id := 1 },
          { sampleSubmission with id := 2 } ]
      nextUserId := 2, nextCourseId := 11, nextEnrollmentId := 3,
      nextAssignmentId := 6, nextSubmissionId := 3, now := 4 }

/-- An inactive user whose stored credential matches password "pw123" under
the identity hash used in the login witness. -/
def inactiveUser : User :=
  { id := 3, email := "sleeper@test.com", password_hash := "pw123",
    full_name := "Sleeper", role := UserRole.teacher,
    avatar_url := none, is_active := false, created_at := 0, updated_at := 0 }

/-- A store holding a single inactive user. -/
def inactiveUserStore : Store :=
  { emptyStore with users := [inactiveUser], nextUserId := 4 }

/-- A store ready for a submission: active student 1 enrolled in published
course 10, which carries published assignment 5. -/
def submitReadyStore : Store :=
  { emptyStore with
      users := [sampleStudent]
      courses := [sampleCourse]
      assignments := [sampleAssignment]
      enrollments := [{ id := 1, course_id := 10, student_id := 1, enrolled_at := 3 }]
      nextUserId := 2, nextCourseId := 11, nextAssignmentId := 6,
      nextEnrollmentId := 2, now := 6 }

/-- A store with one user (id 1) and one course (id 10), used to exercise
the partial-update handlers. -/
def updateReadyStore : Store :=
  { emptyStore with users := [sampleStudent], courses := [sampleCourse],
                    nextUserId := 2, nextCourseId := 11, now := 9 }

/-! ## Frame predicates: all tables but one untouched -/

/-- `s` and `s'` hold the same rows in every table except users. -/
def UnchangedExceptUsers (s s' : Store) : Prop :=
  s'.courses = s.courses ∧ s'.enrollments = s.enrollments ∧
  s'.materials = s.materials ∧ s'.assignments = s.assignments ∧
  s'.submissions = s.submissions ∧ s'.portfolios = s.portfolios

/-- `s` and `s'` hold the same rows in every table except courses. -/
def UnchangedExceptCourses (s s' : Store) : Prop :=
  s'.users = s.users ∧ s'.enrollments = s.enrollments ∧
  s'.materials = s.materials ∧ s'.assignments = s.assignments ∧
  s'.submissions = s.submissions ∧ s'.portfolios = s.portfolios

/-- `s` and `s'` hold the same rows in every table except enrollments. -/
def UnchangedExceptEnrollments (s s' : Store) : Prop :=
  s'.users = s.users ∧ s'.courses = s.courses ∧
  s'.materials = s.materials ∧ s'.assignments = s.assignments ∧
  s'.submissions = s.submissions ∧ s'.portfolios = s.portfolios

/-- `s` and `s'` hold the same rows in every table except materials. -/
def UnchangedExceptMaterials (s s' : Store) : Prop :=
  s'.users = s.users ∧ s'.courses = s.courses ∧
  s'.enrollments = s.enrollments ∧ s'.assignments = s.assignments ∧
  s'.submissions = s.submissions ∧ s'.portfolios = s.portfolios

/-- `s` and `s'` hold the same rows in every table except assignments. -/
def UnchangedExceptAssignments (s s' : Store) : Prop :=
  s'.users = s.users ∧ s'.courses = s.courses ∧
  s'.enrollments = s.enrollments ∧ s'.materials = s.materials ∧
  s'.submissions = s.submissions ∧ s'.portfolios = s.portfolios

/-- `s` and `s'` hold the same rows in every table except submissions. -/
def UnchangedExceptSubmissions (s s' : Store) : Prop :=
  s'.users = s.users ∧ s'.courses = s.courses ∧
  s'.enrollments = s.enrollments ∧ s'.materials = s.materials ∧
  s'.assignments = s.assignments ∧ s'.portfolios = s.portfolios

/-- `s` and `s'` hold the same rows in every table except portfolios. -/
def UnchangedExceptPortfolios (s s' : Store) : Prop :=
  s'.users = s.users ∧ s'.courses = s.courses ∧
  s'.enrollments = s.enrollments ∧ s'.materials = s.materials ∧
  s'.assignments = s.assignments ∧ s'.submissions = s.submissions

/-! ## Shared helper lemmas -/

/-- The storage pipeline of a score is lossless: converting `n` hundredths
to its JS string, storing it in a `numeric(5,2)` column, reading the padded
string back and parsing it with `parseFloat` recovers exactly `n`. -/
theorem parseFloat_pgNumeric2_jsNumToString (n : Nat) :
    parseFloatCents (pgNumeric2 (jsNumToString n)) = n := by
  unfold jsNumToString pgNumeric2 parseFloatCents
  have h100 := Nat.div_add_mod n 100
  have h10 := Nat.div_add_mod (n % 100) 10
  have hm : n % 100 % 10 = n % 10 := Nat.mod_mod_of_dvd n (by norm_num)
  by_cases h1 : n % 100 = 0
  · simp [h1]
    omega
  · by_cases h2 : n % 10 = 0
    · simp [h1, h2]
      omega
    · simp [h1, h2]
      omega

/-- Updating the rows matching an id that matches no row is the identity on
the submissions table. -/
theorem map_update_id_of_filter_nil {l : List AssignmentSubmission} {i : Nat}
    (f : AssignmentSubmission → AssignmentSubmission)
    (h : l.filter (fun x => x.id == i) = []) :
    l.map (fun x => if x.id == i then f x else x) = l := by
  rw [List.filter_eq_nil_iff] at h
  calc l.map (fun x => if x.id == i then f x else x)
      = l.map id := List.map_congr_left (fun x hx => by
        simp only [id]
        rw [if_neg]
        exact fun hb => h x hx hb)
    _ = l := List.map_id l

/-! ## Claim theorems -/


/-- An existing enrollment row for the pair is exactly a positive filter
count in the duplicate check of `enrollInCourse`. -/
theorem enroll_dup_mem_iff (l : List CourseEnrollment) (i : EnrollInCourseInput) :
    (0 < (l.filter (fun e =>
        e.course_id == i.course_id && e.student_id == i.student_id)).length) ↔
    (∃ e ∈ l, e.course_id = i.course_id ∧ e.student_id = i.student_id) := by
  rw [Nat.pos_iff_ne_zero, Ne, List.length_eq_zero, List.filter_eq_nil_iff]
  push_neg
  simp

/-- Forward characterization of the `enrollInCourse` precondition chain:
which check fires, in order, and the exact single-row insertion on
success.  Shared helper for the claim theorems below. -/
theorem enrollInCourse_chain (s : Store) (i : EnrollInCourseInput) :
    (s.users.filter (fun u => u.id == i.student_id) = [] →
      enrollInCourse s i = (s, Except.error DbError.studentNotFound)) ∧
    (∀ u us, s.users.filter (fun u => u.id == i.student_id) = u :: us →
      (u.role ≠ UserRole.student →
        enrollInCourse s i = (s, Except.error DbError.invalidStudentRole)) ∧
      (u.role = UserRole.student → u.is_active = false →
        enrollInCourse s i = (s, Except.error DbError.studentInactive)) ∧
      (u.role = UserRole.student → u.is_active = true →
        (s.courses.filter (fun c => c.id == i.course_id) = [] →
          enrollInCourse s i = (s, Except.error DbError.courseNotFound)) ∧
        (∀ c cs, s.courses.filter (fun c => c.id == i.course_id) = c :: cs →
          (c.status ≠ CourseStatus.published →
            enrollInCourse s i = (s, Except.error DbError.courseNotEnrollable)) ∧
          (c.status = CourseStatus.published →
            ((∃ e ∈ s.enrollments,
                e.course_id = i.course_id ∧ e.student_id = i.student_id) →
              enrollInCourse s i = (s, Except.error DbError.alreadyEnrolled)) ∧
            ((∀ e ∈ s.enrollments,
                ¬(e.course_id = i.course_id ∧ e.student_id = i.student_id)) →
              enrollInCourse s i =
                ({ s with
                    enrollments := s.enrollments ++
                      [{ id := s.nextEnrollmentId, course_id := i.course_id,
                         student_id := i.student_id, enrolled_at := s.now }],
                    nextEnrollmentId := s.nextEnrollmentId + 1 },
                 Except.ok
                   { id := s.nextEnrollmentId, course_id := i.course_id,
                     student_id := i.student_id, enrolled_at := s.now })))))) := by
  refine ⟨?_, ?_⟩
  · intro h
    unfold enrollInCourse
    rw [h]
  · intro u us hu
    refine ⟨?_, ?_, ?_⟩
    · intro hrole
      unfold enrollInCourse
      rw [hu]
      simp only []
      rw [if_pos hrole]
    · intro hrole hact
      unfold enrollInCourse
      rw [hu]
      simp only []
      rw [if_neg (by simp [hrole]), if_pos hact]
    · intro hrole hact
      refine ⟨?_, ?_⟩
      · intro hc
        unfold enrollInCourse
        rw [hu]
        simp only []
        rw [if_neg (by simp [hrole]), if_neg (by simp [hact]), hc]
      · intro c cs hc
        refine ⟨?_, ?_⟩
        · intro hst
          unfold enrollInCourse
          rw [hu]
          simp only []
          rw [if_neg (by simp [hrole]), if_neg (by simp [hact]), hc]
          simp only []
          rw [if_pos hst]
        · intro hst
          refine ⟨?_, ?_⟩
          · intro hdup
            unfold enrollInCourse
            rw [hu]
            simp only []
            rw [if_neg (by simp [hrole]), if_neg (by simp [hact]), hc]
            simp only []
            rw [if_neg (by simp [hst]),
              if_pos ((enroll_dup_mem_iff s.enrollments i).mpr hdup)]
          · intro hnodup
            unfold enrollInCourse
            rw [hu]
            simp only []
            rw [if_neg (by simp [hrole]), if_neg (by simp [hact]), hc]
            simp only []
            rw [if_neg (by simp [hst]),
              if_neg (fun hpos => by
                obtain ⟨e, he, hpair⟩ := (enroll_dup_mem_iff s.enrollments i).mp hpos
                exact hnodup e he hpair)]

/-- C1: `enrollInCourse` evaluates its preconditions in this fixed order
with these distinct failures — no user with `student_id` → StudentNotFound;
role not student → InvalidStudentRole; inactive user → StudentInactive;
missing course → CourseNotFound; status not published → CourseNotEnrollable;
an existing `(course_id, student_id)` row → AlreadyEnrolled — and when all
pass exactly one new enrollment row is inserted; moreover two sequential
calls with identical input succeed the first time and fail the second time
with the duplicate error. -/
theorem enrollInCourse_precondition_chain (s : Store) (i : EnrollInCourseInput) :
    (s.users.filter (fun u => u.id == i.student_id) = [] →
      enrollInCourse s i = (s, Except.error DbError.studentNotFound)) ∧
    (∀ u us, s.users.filter (fun u => u.id == i.student_id) = u :: us →
      (u.role ≠ UserRole.student →
        enrollInCourse s i = (s, Except.error DbError.invalidStudentRole)) ∧
      (u.role = UserRole.student → u.is_active = false →
        enrollInCourse s i = (s, Except.error DbError.studentInactive)) ∧
      (u.role = UserRole.student → u.is_active = true →
        (s.courses.filter (fun c => c.id == i.course_id) = [] →
          enrollInCourse s i = (s, Except.error DbError.courseNotFound)) ∧
        (∀ c cs, s.courses.filter (fun c => c.id == i.course_id) = c :: cs →
          (c.status ≠ CourseStatus.published →
            enrollInCourse s i = (s, Except.error DbError.courseNotEnrollable)) ∧
          (c.status = CourseStatus.published →
            ((∃ e ∈ s.enrollments,
                e.course_id = i.course_id ∧ e.student_id = i.student_id) →
              enrollInCourse s i = (s, Except.error DbError.alreadyEnrolled)) ∧
            ((∀ e ∈ s.enrollments,
                ¬(e.course_id = i.course_id ∧ e.student_id = i.student_id)) →
              enrollInCourse s i =
                ({ s with
                    enrollments := s.enrollments ++
                      [{ id := s.nextEnrollmentId, course_id := i.course_id,
                         student_id := i.student_id, enrolled_at := s.now }],
                    nextEnrollmentId := s.nextEnrollmentId + 1 },
                 Except.ok
                   { id := s.nextEnrollmentId, course_id := i.course_id,
                     student_id := i.student_id, enrolled_at := s.now })))))) ∧
    (∀ s' row, enrollInCourse s i = (s', Except.ok row) →
      (enrollInCourse s' i).2 = Except.error DbError.alreadyEnrolled) := by
  refine ⟨(enrollInCourse_chain s i).1, (enrollInCourse_chain s i).2, ?_⟩
  intro s' row h
  unfold enrollInCourse at h
  split at h
  · exact absurd h (by simp)
  · next u us hu =>
    split at h
    · exact absurd h (by simp)
    · next hrole =>
      split at h
      · exact absurd h (by simp)
      · next hact =>
        split at h
        · exact absurd h (by simp)
        · next c cs hc =>
          split at h
          · exact absurd h (by simp)
          · next hst =>
            split at h
            · exact absurd h (by simp)
            · next hdup =>
              simp only [Prod.mk.injEq, Except.ok.injEq] at h
              obtain ⟨hs', hrow⟩ := h
              subst hrow
              have hu' : s'.users.filter (fun u => u.id == i.student_id)
                  = u :: us := by
                rw [← hs']
                exact hu
              have hc' : s'.courses.filter (fun c => c.id == i.course_id)
                  = c :: cs := by
                rw [← hs']
                exact hc
              have hrole' : u.role = UserRole.student := by
                by_contra hne
                exact hrole hne
              have hact' : u.is_active = true := by
                cases hb : u.is_active with
                | false => exact absurd hb hact
                | true => rfl
              have hst' : c.status = CourseStatus.published := by
                by_contra hne
                exact hst hne
              have hexists : ∃ e ∈ s'.enrollments,
                  e.course_id = i.course_id ∧ e.student_id = i.student_id := by
                rw [← hs']
                refine ⟨{ id := s.nextEnrollmentId, course_id := i.course_id,
                          student_id := i.student_id, enrolled_at := s.now },
                  ?_, rfl, rfl⟩
                exact List.mem_append_right _ (List.mem_singleton.mpr rfl)
              have hsecond :=
                ((((((enrollInCourse_chain s' i).2 u us hu').2.2 hrole' hact').2
                  c cs hc').2 hst').1 hexists)
              rw [hsecond]

/-- Witness for C1: in a store with an active student 1 and published course
10, enrolling succeeds once; the immediately repeated identical call fails
with the duplicate error. -/
theorem enrollInCourse_precondition_chain_witness :
    (enrollInCourse (enrollInCourse enrollReadyStore ⟨10, 1⟩).1 ⟨10, 1⟩).2 =
      Except.error DbError.alreadyEnrolled :=
  (enrollInCourse_precondition_chain enrollReadyStore ⟨10, 1⟩).2.2
    (enrollInCourse enrollReadyStore ⟨10, 1⟩).1
    { id := 1, course_id := 10, student_id := 1, enrolled_at := 5 }
    rfl

/-- The enrollment lookup of `createAssignmentSubmission` finds no row for
the pair exactly when no enrollment row matches it. -/
theorem sub_enroll_nil_iff (l : List CourseEnrollment) (cid sid : Nat) :
    ((l.filter (fun e => e.course_id == cid && e.student_id == sid)).length = 0) ↔
    (∀ e ∈ l, ¬(e.course_id = cid ∧ e.student_id = sid)) := by
  rw [List.length_eq_zero, List.filter_eq_nil_iff]
  simp

/-- An existing submission row for the pair is exactly a positive filter
count in the duplicate check of `createAssignmentSubmission`. -/
theorem sub_dup_mem_iff (l : List AssignmentSubmission) (aid sid : Nat) :
    (0 < (l.filter (fun x =>
        x.assignment_id == aid && x.student_id == sid)).length) ↔
    (∃ x ∈ l, x.assignment_id = aid ∧ x.student_id = sid) := by
  rw [Nat.pos_iff_ne_zero, Ne, List.length_eq_zero, List.filter_eq_nil_iff]
  push_neg
  simp

/-- C2: `createAssignmentSubmission` fails with AssignmentNotFound when the
assignment is missing, AssignmentNotPublished when its status is not
published, StudentNotEnrolled when no enrollment row for
`(assignment.course_id, student_id)` exists, SubmissionAlreadyExists when an
`(assignment_id, student_id)` submission exists; otherwise it inserts
exactly one submission row whose status is `draft` and whose score,
feedback, submitted_at and graded_at are all null. -/
theorem createAssignmentSubmission_chain
    (s : Store) (i : CreateAssignmentSubmissionInput) :
    (s.assignments.filter (fun a => a.id == i.assignment_id) = [] →
      createAssignmentSubmission s i =
        (s, Except.error DbError.assignmentNotFound)) ∧
    (∀ a as, s.assignments.filter (fun a => a.id == i.assignment_id) = a :: as →
      (a.status ≠ AssignmentStatus.published →
        createAssignmentSubmission s i =
          (s, Except.error DbError.assignmentNotPublished)) ∧
      (a.status = AssignmentStatus.published →
        ((∀ e ∈ s.enrollments,
            ¬(e.course_id = a.course_id ∧ e.student_id = i.student_id)) →
          createAssignmentSubmission s i =
            (s, Except.error DbError.studentNotEnrolled)) ∧
        ((∃ e ∈ s.enrollments,
            e.course_id = a.course_id ∧ e.student_id = i.student_id) →
          ((∃ x ∈ s.submissions,
              x.assignment_id = i.assignment_id ∧ x.student_id = i.student_id) →
            createAssignmentSubmission s i =
              (s, Except.error DbError.submissionAlreadyExists)) ∧
          ((∀ x ∈ s.submissions,
              ¬(x.assignment_id = i.assignment_id ∧ x.student_id = i.student_id)) →
            ∃ row, createAssignmentSubmission s i =
                ({ s with submissions := s.submissions ++ [row],
                          nextSubmissionId := s.nextSubmissionId + 1 },
                 Except.ok (toApiSubmission row)) ∧
              row.status = SubmissionStatus.draft ∧
              row.score = none ∧
              row.feedback = none ∧
              row.submitted_at = none ∧
              row.graded_at = none)))) := by
  refine ⟨?_, ?_⟩
  · intro h
    unfold createAssignmentSubmission
    rw [h]
  · intro a as ha
    refine ⟨?_, ?_⟩
    · intro hst
      unfold createAssignmentSubmission
      rw [ha]
      simp only []
      rw [if_pos hst]
    · intro hst
      refine ⟨?_, ?_⟩
      · intro hnoe
        unfold createAssignmentSubmission
        rw [ha]
        simp only []
        rw [if_neg (by simp [hst]),
          if_pos ((sub_enroll_nil_iff s.enrollments a.course_id i.student_id).mpr hnoe)]
      · intro henr
        refine ⟨?_, ?_⟩
        · intro hdup
          unfold createAssignmentSubmission
          rw [ha]
          simp only []
          rw [if_neg (by simp [hst]),
            if_neg (fun h0 => by
              obtain ⟨e, he, hpair⟩ := henr
              exact (sub_enroll_nil_iff s.enrollments a.course_id
                i.student_id).mp h0 e he hpair),
            if_pos ((sub_dup_mem_iff s.submissions i.assignment_id
              i.student_id).mpr hdup)]
        · intro hnodup
          refine ⟨{ id := s.nextSubmissionId, assignment_id := i.assignment_id,
                    student_id := i.student_id,
                    submission_url := jsOrNull i.submission_url,
                    submission_text := jsOrNull i.submission_text,
                    score := none, feedback := none,
                    status := SubmissionStatus.draft,
                    submitted_at := none, graded_at := none,
                    created_at := s.now, updated_at := s.now },
                  ?_, rfl, rfl, rfl, rfl, rfl⟩
          unfold createAssignmentSubmission
          rw [ha]
          simp only []
          rw [if_neg (by simp [hst]),
            if_neg (fun h0 => by
              obtain ⟨e, he, hpair⟩ := henr
              exact (sub_enroll_nil_iff s.enrollments a.course_id
                i.student_id).mp h0 e he hpair),
            if_neg (fun hpos => by
              obtain ⟨x, hx, hpair⟩ :=
                (sub_dup_mem_iff s.submissions i.assignment_id i.student_id).mp hpos
              exact hnodup x hx hpair)]

/-- Witness for C2: with published assignment 5 and enrolled student 1, the
submission call inserts exactly one draft row with null score, feedback,
submitted_at and graded_at. -/
theorem createAssignmentSubmission_chain_witness :
    ∃ row, createAssignmentSubmission submitReadyStore
        { assignment_id := 5, student_id := 1 } =
        ({ submitReadyStore with
            submissions := submitReadyStore.submissions ++ [row],
            nextSubmissionId := submitReadyStore.nextSubmissionId + 1 },
         Except.ok (toApiSubmission row)) ∧
      row.status = SubmissionStatus.draft ∧
      row.score = none ∧
      row.feedback = none ∧
      row.submitted_at = none ∧
      row.graded_at = none :=
  ((((createAssignmentSubmission_chain submitReadyStore
      { assignment_id := 5, student_id := 1 }).2
    sampleAssignment [] (by decide)).2 (by decide)).2
    ⟨{ id := 1, course_id := 10, student_id := 1, enrolled_at := 3 },
      by decide, by decide, by decide⟩).2
    (by
      intro x hx
      simp [submitReadyStore, emptyStore] at hx)

/-- The post-state of `gradeAssignmentSubmission` is always the store with
the matching submission rows rewritten (with no matching row the UPDATE
touches nothing), whether or not the call succeeds. -/
theorem gradeAssignmentSubmission_post_store
    (s : Store) (i : GradeAssignmentSubmissionInput) :
    (gradeAssignmentSubmission s i).1 =
      { s with submissions := s.submissions.map (fun y =>
          if y.id == i.id then gradeSet i s.now y else y) } := by
  unfold gradeAssignmentSubmission
  split <;> rfl

/-- C3 (amended): grading a missing submission fails with the not-found
error and leaves the store unchanged; otherwise the targeted submission's
score becomes the given score, its feedback the given feedback when that is
a non-empty string and null when it is null or empty, its status `graded`,
its graded_at and updated_at now, all other fields unchanged; no status
check prevents re-grading an already graded submission. -/
theorem gradeAssignmentSubmission_spec (s : Store) (i : GradeAssignmentSubmissionInput) :
    (s.submissions.filter (fun y => y.id == i.id) = [] →
      gradeAssignmentSubmission s i =
        (s, Except.error (DbError.submissionNotFound i.id))) ∧
    (∀ x xs, s.submissions.filter (fun y => y.id == i.id) = x :: xs →
      ∃ r, gradeAssignmentSubmission s i =
          ({ s with submissions := s.submissions.map (fun y =>
              if y.id == i.id then gradeSet i s.now y else y) },
           Except.ok r) ∧
        r.score = some i.score ∧
        r.feedback = jsOrNull i.feedback ∧
        r.status = SubmissionStatus.graded ∧
        r.graded_at = some s.now ∧
        r.updated_at = s.now ∧
        r.id = x.id ∧
        r.assignment_id = x.assignment_id ∧
        r.student_id = x.student_id ∧
        r.submission_url = x.submission_url ∧
        r.submission_text = x.submission_text ∧
        r.submitted_at = x.submitted_at ∧
        r.created_at = x.created_at) := by
  refine ⟨?_, ?_⟩
  · intro h
    unfold gradeAssignmentSubmission
    rw [h]
    simp only [List.map_nil]
    rw [map_update_id_of_filter_nil _ h]
  · intro x xs hx
    refine ⟨toApiSubmission (gradeSet i s.now x), ?_, ?_, rfl, rfl, rfl, rfl,
      rfl, rfl, rfl, rfl, rfl, rfl, rfl⟩
    · unfold gradeAssignmentSubmission
      rw [hx]
      simp only [List.map_cons]
    · simp [toApiSubmission, gradeSet, parseFloat_pgNumeric2_jsNumToString]

/-- Counterexample to C3 as stated: grading with the empty string as
feedback does not make the stored feedback the given feedback — JS
`input.feedback || null` coerces the falsy empty string to null. -/
theorem gradeAssignmentSubmission_empty_feedback_counterexample :
    ∃ r, (gradeAssignmentSubmission gradeReadyStore
        { id := 1, score := 5000, feedback := some "" }).2 = Except.ok r ∧
      r.feedback ≠ some "" ∧ r.feedback = none := by
  refine ⟨_, rfl, ?_, rfl⟩
  decide

/-- Witness for C3's amended theorem, spec scenario D: grading submission 1
with score 0 and null feedback yields status graded, score 0, feedback
null. -/
theorem gradeAssignmentSubmission_spec_witness :
    ∃ r, gradeAssignmentSubmission gradeReadyStore
        { id := 1, score := 0, feedback := none } =
        ({ gradeReadyStore with
            submissions := gradeReadyStore.submissions.map (fun y =>
              if y.id == ({ id := 1, score := 0, feedback := none }
                  : GradeAssignmentSubmissionInput).id then
                gradeSet { id := 1, score := 0, feedback := none }
                  gradeReadyStore.now y
              else y) },
         Except.ok r) ∧
      r.score = some 0 ∧
      r.feedback = jsOrNull none ∧
      r.status = SubmissionStatus.graded ∧
      r.graded_at = some gradeReadyStore.now ∧
      r.updated_at = gradeReadyStore.now ∧
      r.id = sampleSubmission.id ∧
      r.assignment_id = sampleSubmission.assignment_id ∧
      r.student_id = sampleSubmission.student_id ∧
      r.submission_url = sampleSubmission.submission_url ∧
      r.submission_text = sampleSubmission.submission_text ∧
      r.submitted_at = sampleSubmission.submitted_at ∧
      r.created_at = sampleSubmission.created_at :=
  (gradeAssignmentSubmission_spec gradeReadyStore
    { id := 1, score := 0, feedback := none }).2 sampleSubmission [] (by decide)

/-- C4: a decimal score passed to `gradeAssignmentSubmission` is returned
exactly — by the grading call itself and by subsequent reads through
`getStudentSubmissions` and `getAssignmentSubmissions` — with no drift
through the number-to-string storage conversion and the `parseFloat`
read conversion (scores are scale-2 decimals in hundredths; the bound is
the `numeric(5,2)` range). -/
theorem grade_score_roundtrip (s : Store) (i : GradeAssignmentSubmissionInput)
    (x : AssignmentSubmission) (xs : List AssignmentSubmission)
    (hx : s.submissions.filter (fun y => y.id == i.id) = x :: xs)
    (hbound : i.score < 100000) :
    (gradeAssignmentSubmission s i).2 =
      Except.ok (toApiSubmission (gradeSet i s.now x)) ∧
    (toApiSubmission (gradeSet i s.now x)).score = some i.score ∧
    toApiSubmission (gradeSet i s.now x) ∈
      getStudentSubmissions (gradeAssignmentSubmission s i).1 x.student_id ∧
    toApiSubmission (gradeSet i s.now x) ∈
      getAssignmentSubmissions (gradeAssignmentSubmission s i).1 x.assignment_id := by
  have hxmem : x ∈ s.submissions.filter (fun y => y.id == i.id) := by
    rw [hx]
    exact List.mem_cons_self x xs
  rw [List.mem_filter] at hxmem
  obtain ⟨hxs, hxid⟩ := hxmem
  have hmapped : gradeSet i s.now x ∈ (gradeAssignmentSubmission s i).1.submissions := by
    rw [gradeAssignmentSubmission_post_store]
    have hm := List.mem_map_of_mem
      (fun y => if y.id == i.id then gradeSet i s.now y else y) hxs
    simpa [hxid] using hm
  refine ⟨?_, ?_, ?_, ?_⟩
  · unfold gradeAssignmentSubmission
    rw [hx]
    simp only [List.map_cons]
  · simp [toApiSubmission, gradeSet, parseFloat_pgNumeric2_jsNumToString]
  · unfold getStudentSubmissions
    refine List.mem_map_of_mem toApiSubmission ?_
    rw [List.mem_filter]
    exact ⟨hmapped, by simp [gradeSet]⟩
  · unfold getAssignmentSubmissions
    refine List.mem_map_of_mem toApiSubmission ?_
    rw [List.mem_filter]
    exact ⟨hmapped, by simp [gradeSet]⟩

/-- Witness for C4 at the decimal score 87.33 (8733 hundredths): the grading
result and both subsequent reads return exactly 87.33. -/
theorem grade_score_roundtrip_witness :
    (gradeAssignmentSubmission gradeReadyStore
        { id := 1, score := 8733, feedback := none }).2 =
      Except.ok (toApiSubmission (gradeSet
        { id := 1, score := 8733, feedback := none }
        gradeReadyStore.now sampleSubmission)) ∧
    (toApiSubmission (gradeSet { id := 1, score := 8733, feedback := none }
        gradeReadyStore.now sampleSubmission)).score = some 8733 ∧
    toApiSubmission (gradeSet { id := 1, score := 8733, feedback := none }
        gradeReadyStore.now sampleSubmission) ∈
      getStudentSubmissions (gradeAssignmentSubmission gradeReadyStore
        { id := 1, score := 8733, feedback := none }).1 sampleSubmission.student_id ∧
    toApiSubmission (gradeSet { id := 1, score := 8733, feedback := none }
        gradeReadyStore.now sampleSubmission) ∈
      getAssignmentSubmissions (gradeAssignmentSubmission gradeReadyStore
        { id := 1, score := 8733, feedback := none }).1 sampleSubmission.assignment_id :=
  grade_score_roundtrip gradeReadyStore
    { id := 1, score := 8733, feedback := none }
    sampleSubmission [] (by decide) (by decide)

/-- C5: for every store and caller, the admin dashboard returns exactly the
global counts — all users, all courses, users with role student, users with
role teacher — independent of the calling userId; on a store containing
only the calling admin the four counts are 1, 0, 0, 0 (spec scenario E). -/
theorem getDashboardData_admin_counts (s : Store) (userId : Nat) :
    getDashboardData s userId UserRole.admin =
      { totalUsers := some s.users.length,
        totalCourses := some s.courses.length,
        totalStudents :=
          some (s.users.filter (fun u => u.role == UserRole.student)).length,
        totalTeachers :=
          some (s.users.filter (fun u => u.role == UserRole.teacher)).length } ∧
    (∀ uid uid', getDashboardData s uid UserRole.admin =
      getDashboardData s uid' UserRole.admin) ∧
    getDashboardData adminOnlyStore userId UserRole.admin =
      { totalUsers := some 1, totalCourses := some 0,
        totalStudents := some 0, totalTeachers := some 0 } :=
  ⟨rfl, fun _ _ => rfl, rfl⟩

/-- C6 (modelled from the spec; the repository holds only a placeholder for
`createAssignment`): when the course does not exist the call fails with
CourseNotFound and no assignment row is created; when the course exists one
assignment row is created, and the outcome never depends on the users table
— no teacher-ownership check exists. -/
theorem createAssignment_course_check (s : Store) (i : CreateAssignmentInput) :
    (s.courses.filter (fun c => c.id == i.course_id) = [] →
      createAssignment s i = (s, Except.error DbError.courseNotFound)) ∧
    (s.courses.filter (fun c => c.id == i.course_id) ≠ [] →
      ∃ row, createAssignment s i =
        ({ s with assignments := s.assignments ++ [row],
                  nextAssignmentId := s.nextAssignmentId + 1 },
         Except.ok row)) ∧
    (∀ us, (createAssignment { s with users := us } i).2 =
      (createAssignment s i).2) := by
  refine ⟨?_, ?_, ?_⟩
  · intro h
    unfold createAssignment
    rw [h]
  case refine_3 =>
    intro us
    unfold createAssignment
    cases hc : s.courses.filter (fun c => c.id == i.course_id) with
    | nil => simp only [hc]
    | cons c cs => simp only [hc]
  · intro h
    cases hc : s.courses.filter (fun c => c.id == i.course_id) with
    | nil => exact absurd hc h
    | cons c cs =>
      refine ⟨{ id := s.nextAssignmentId, course_id := i.course_id,
                title := i.title, description := i.description,
                due_date := i.due_date,
                max_score := pgNumeric2 (jsNumToString i.max_score),
                status := i.status.getD AssignmentStatus.draft,
                created_at := s.now, updated_at := s.now }, ?_⟩
      unfold createAssignment
      rw [hc]

/-- Witness for C6: on a store whose only course is id 10, creating an
assignment on course 10 succeeds and appends one row — although the course
teacher plays no part in the call. -/
theorem createAssignment_course_check_witness :
    ∃ row, createAssignment updateReadyStore
        { course_id := 10, title := "HW", max_score := 10000 } =
      ({ updateReadyStore with
          assignments := updateReadyStore.assignments ++ [row],
          nextAssignmentId := updateReadyStore.nextAssignmentId + 1 },
       Except.ok row) :=
  (createAssignment_course_check updateReadyStore
    { course_id := 10, title := "HW", max_score := 10000 }).2.1 (by decide)

/-- C7 (modelled from the spec; the repository holds only placeholders for
`updateUser` and `updateCourse`): both fail with NotFound when no entity
with the given id exists; otherwise only fields present in the input are
modified, absent fields retain their prior stored values — in particular
role, password credential, created_at (and for courses teacher_id,
created_at) can never change — and updated_at is refreshed on every
successful call regardless of which fields changed. -/
theorem update_partial_semantics (s : Store)
    (iu : UpdateUserInput) (ic : UpdateCourseInput) :
    (s.users.filter (fun u => u.id == iu.id) = [] →
      updateUser s iu = (s, Except.error (DbError.userNotFound iu.id))) ∧
    (∀ u us, s.users.filter (fun u => u.id == iu.id) = u :: us →
      ∃ u', updateUser s iu =
          ({ s with users := s.users.map (fun x =>
              if x.id == iu.id then applyUserUpdate s.now iu x else x) },
           Except.ok u') ∧
        u'.role = u.role ∧
        u'.password_hash = u.password_hash ∧
        u'.created_at = u.created_at ∧
        u'.id = u.id ∧
        u'.updated_at = s.now ∧
        (iu.email = none → u'.email = u.email) ∧
        (∀ v, iu.email = some v → u'.email = v) ∧
        (iu.full_name = none → u'.full_name = u.full_name) ∧
        (∀ v, iu.full_name = some v → u'.full_name = v) ∧
        (iu.avatar_url = none → u'.avatar_url = u.avatar_url) ∧
        (∀ v, iu.avatar_url = some v → u'.avatar_url = v) ∧
        (iu.is_active = none → u'.is_active = u.is_active) ∧
        (∀ v, iu.is_active = some v → u'.is_active = v)) ∧
    (s.courses.filter (fun c => c.id == ic.id) = [] →
      updateCourse s ic =
        (s, Except.error (DbError.courseUpdateNotFound ic.id))) ∧
    (∀ c cs, s.courses.filter (fun c => c.id == ic.id) = c :: cs →
      ∃ c', updateCourse s ic =
          ({ s with courses := s.courses.map (fun x =>
              if x.id == ic.id then applyCourseUpdate s.now ic x else x) },
           Except.ok c') ∧
        c'.teacher_id = c.teacher_id ∧
        c'.created_at = c.created_at ∧
        c'.id = c.id ∧
        c'.updated_at = s.now ∧
        (ic.title = none → c'.title = c.title) ∧
        (∀ v, ic.title = some v → c'.title = v) ∧
        (ic.description = none → c'.description = c.description) ∧
        (∀ v, ic.description = some v → c'.description = v) ∧
        (ic.thumbnail_url = none → c'.thumbnail_url = c.thumbnail_url) ∧
        (∀ v, ic.thumbnail_url = some v → c'.thumbnail_url = v) ∧
        (ic.status = none → c'.status = c.status) ∧
        (∀ v, ic.status = some v → c'.status = v)) := by
  refine ⟨?_, ?_, ?_, ?_⟩
  · intro h
    unfold updateUser
    rw [h]
  · intro u us hu
    refine ⟨applyUserUpdate s.now iu u, ?_, rfl, rfl, rfl, rfl, rfl,
      (fun hn => by simp [applyUserUpdate, hn]),
      (fun v hv => by simp [applyUserUpdate, hv]),
      (fun hn => by simp [applyUserUpdate, hn]),
      (fun v hv => by simp [applyUserUpdate, hv]),
      (fun hn => by simp [applyUserUpdate, hn]),
      (fun v hv => by simp [applyUserUpdate, hv]),
      (fun hn => by simp [applyUserUpdate, hn]),
      (fun v hv => by simp [applyUserUpdate, hv])⟩
    unfold updateUser
    rw [hu]
  · intro h
    unfold updateCourse
    rw [h]
  · intro c cs hc
    refine ⟨applyCourseUpdate s.now ic c, ?_, rfl, rfl, rfl, rfl,
      (fun hn => by simp [applyCourseUpdate, hn]),
      (fun v hv => by simp [applyCourseUpdate, hv]),
      (fun hn => by simp [applyCourseUpdate, hn]),
      (fun v hv => by simp [applyCourseUpdate, hv]),
      (fun hn => by simp [applyCourseUpdate, hn]),
      (fun v hv => by simp [applyCourseUpdate, hv]),
      (fun hn => by simp [applyCourseUpdate, hn]),
      (fun v hv => by simp [applyCourseUpdate, hv])⟩
    unfold updateCourse
    rw [hc]

/-- Witness for C7: updating user 1's full name only, on a store with user 1
and course 10, keeps role, credential, created_at and email, and refreshes
updated_at; likewise the unknown-course branch for `updateCourse` at id 99
returns NotFound. -/
theorem update_partial_semantics_witness :
    (∃ u', updateUser updateReadyStore { id := 1, full_name := some "New Name" } =
        ({ updateReadyStore with
            users := updateReadyStore.users.map (fun x =>
              if x.id == ({ id := 1, full_name := some "New Name" }
                  : UpdateUserInput).id then
                applyUserUpdate updateReadyStore.now
                  { id := 1, full_name := some "New Name" } x
              else x) },
         Except.ok u') ∧
      u'.role = sampleStudent.role ∧
      u'.password_hash = sampleStudent.password_hash ∧
      u'.created_at = sampleStudent.created_at ∧
      u'.id = sampleStudent.id ∧
      u'.updated_at = updateReadyStore.now ∧
      u'.email = sampleStudent.email ∧
      u'.full_name = "New Name") ∧
    updateCourse updateReadyStore { id := 99 } =
      (updateReadyStore, Except.error (DbError.courseUpdateNotFound 99)) := by
  have h := update_partial_semantics updateReadyStore
    { id := 1, full_name := some "New Name" } { id := 99 }
  obtain ⟨u', hok, hrole, hpw, hcr, hid, hupd, hemail, -, -, hfn, -, -, -, -⟩ :=
    h.2.1 sampleStudent [] (by decide)
  exact ⟨⟨u', hok, hrole, hpw, hcr, hid, hupd, hemail rfl, hfn "New Name" rfl⟩,
    h.2.2.1 (by decide)⟩

/-- `enrollInCourse` either fails leaving the store untouched or appends
exactly the returned row to the enrollments table. -/
theorem enrollInCourse_cases (s : Store) (i : EnrollInCourseInput) :
    (∃ e, enrollInCourse s i = (s, Except.error e)) ∨
    (∃ row, enrollInCourse s i =
      ({ s with enrollments := s.enrollments ++ [row],
                nextEnrollmentId := s.nextEnrollmentId + 1 },
       Except.ok row)) := by
  unfold enrollInCourse
  repeat' split
  all_goals first
    | exact Or.inl ⟨_, rfl⟩
    | exact Or.inr ⟨_, rfl⟩

/-- `createAssignmentSubmission` either fails leaving the store untouched or
appends exactly one row to the submissions table, returning its API form. -/
theorem createAssignmentSubmission_cases
    (s : Store) (i : CreateAssignmentSubmissionInput) :
    (∃ e, createAssignmentSubmission s i = (s, Except.error e)) ∨
    (∃ row, createAssignmentSubmission s i =
      ({ s with submissions := s.submissions ++ [row],
                nextSubmissionId := s.nextSubmissionId + 1 },
       Except.ok (toApiSubmission row))) := by
  unfold createAssignmentSubmission
  repeat' split
  all_goals first
    | exact Or.inl ⟨_, rfl⟩
    | exact Or.inr ⟨_, rfl⟩

/-- `createCourse` either fails leaving the store untouched or appends
exactly the returned row to the courses table. -/
theorem createCourse_cases (s : Store) (i : CreateCourseInput) :
    (∃ e, createCourse s i = (s, Except.error e)) ∨
    (∃ row, createCourse s i =
      ({ s with courses := s.courses ++ [row],
                nextCourseId := s.nextCourseId + 1 },
       Except.ok row)) := by
  unfold createCourse
  repeat' split
  all_goals first
    | exact Or.inl ⟨_, rfl⟩
    | exact Or.inr ⟨_, rfl⟩

/-- `createLearningMaterial` either fails leaving the store untouched or
appends exactly the returned row to the materials table. -/
theorem createLearningMaterial_cases (s : Store) (i : CreateLearningMaterialInput) :
    (∃ e, createLearningMaterial s i = (s, Except.error e)) ∨
    (∃ row, createLearningMaterial s i =
      ({ s with materials := s.materials ++ [row],
                nextMaterialId := s.nextMaterialId + 1 },
       Except.ok row)) := by
  unfold createLearningMaterial
  repeat' split
  all_goals first
    | exact Or.inl ⟨_, rfl⟩
    | exact Or.inr ⟨_, rfl⟩

/-- `createPortfolioProject` either fails leaving the store untouched or
appends exactly the returned row to the portfolios table. -/
theorem createPortfolioProject_cases (s : Store) (i : CreatePortfolioProjectInput) :
    (∃ e, createPortfolioProject s i = (s, Except.error e)) ∨
    (∃ row, createPortfolioProject s i =
      ({ s with portfolios := s.portfolios ++ [row],
                nextPortfolioId := s.nextPortfolioId + 1 },
       Except.ok row)) := by
  unfold createPortfolioProject
  repeat' split
  all_goals first
    | exact Or.inl ⟨_, rfl⟩
    | exact Or.inr ⟨_, rfl⟩

/-- `createUser` either fails leaving the store untouched or appends exactly
the returned row to the users table. -/
theorem createUser_cases (hashFn : String → String) (s : Store) (i : CreateUserInput) :
    (∃ e, createUser hashFn s i = (s, Except.error e)) ∨
    (∃ row, createUser hashFn s i =
      ({ s with users := s.users ++ [row],
                nextUserId := s.nextUserId + 1 },
       Except.ok row)) := by
  unfold createUser
  repeat' split
  all_goals first
    | exact Or.inl ⟨_, rfl⟩
    | exact Or.inr ⟨_, rfl⟩

/-- `createAssignment` either fails leaving the store untouched or appends
exactly the returned row to the assignments table. -/
theorem createAssignment_cases (s : Store) (i : CreateAssignmentInput) :
    (∃ e, createAssignment s i = (s, Except.error e)) ∨
    (∃ row, createAssignment s i =
      ({ s with assignments := s.assignments ++ [row],
                nextAssignmentId := s.nextAssignmentId + 1 },
       Except.ok row)) := by
  unfold createAssignment
  repeat' split
  all_goals first
    | exact Or.inl ⟨_, rfl⟩
    | exact Or.inr ⟨_, rfl⟩

/-- `gradeAssignmentSubmission` either fails on a missing id with the store
untouched, or succeeds and rewrites exactly the rows matching the id. -/
theorem gradeAssignmentSubmission_cases (s : Store) (i : GradeAssignmentSubmissionInput) :
    (gradeAssignmentSubmission s i =
      (s, Except.error (DbError.submissionNotFound i.id))) ∨
    (∃ r, gradeAssignmentSubmission s i =
      ({ s with submissions := s.submissions.map (fun y =>
          if y.id == i.id then gradeSet i s.now y else y) },
       Except.ok r)) := by
  cases hf : s.submissions.filter (fun y => y.id == i.id) with
  | nil =>
    left
    unfold gradeAssignmentSubmission
    rw [hf]
    simp only [List.map_nil]
    rw [map_update_id_of_filter_nil _ hf]
  | cons x xs =>
    right
    refine ⟨toApiSubmission (gradeSet i s.now x), ?_⟩
    unfold gradeAssignmentSubmission
    rw [hf]
    simp only [List.map_cons]

/-- `updateUser` either fails on a missing id with the store untouched, or
succeeds and rewrites exactly the user rows matching the id. -/
theorem updateUser_cases (s : Store) (i : UpdateUserInput) :
    (updateUser s i = (s, Except.error (DbError.userNotFound i.id))) ∨
    (∃ u, updateUser s i =
      ({ s with users := s.users.map (fun x =>
          if x.id == i.id then applyUserUpdate s.now i x else x) },
       Except.ok u)) := by
  cases hf : s.users.filter (fun u => u.id == i.id) with
  | nil =>
    left
    unfold updateUser
    rw [hf]
  | cons u us =>
    right
    refine ⟨applyUserUpdate s.now i u, ?_⟩
    unfold updateUser
    rw [hf]

/-- `updateCourse` either fails on a missing id with the store untouched, or
succeeds and rewrites exactly the course rows matching the id. -/
theorem updateCourse_cases (s : Store) (i : UpdateCourseInput) :
    (updateCourse s i = (s, Except.error (DbError.courseUpdateNotFound i.id))) ∨
    (∃ c, updateCourse s i =
      ({ s with courses := s.courses.map (fun x =>
          if x.id == i.id then applyCourseUpdate s.now i x else x) },
       Except.ok c)) := by
  cases hf : s.courses.filter (fun c => c.id == i.id) with
  | nil =>
    left
    unfold updateCourse
    rw [hf]
  | cons c cs =>
    right
    refine ⟨applyCourseUpdate s.now i c, ?_⟩
    unfold updateCourse
    rw [hf]

/-- C8: every mutating operation — user, course, enrollment, material,
assignment, submission and portfolio creation, user and course update, and
grading — either performs exactly one single-row write (one appended row,
or for the update/grading handlers a rewrite of exactly the rows matching
the targeted id) leaving every other table untouched, or fails with the
store completely unchanged, so partial application can never be observed. -/
theorem mutations_atomic (s : Store) :
    (∀ hashFn i s' e, createUser hashFn s i = (s', Except.error e) → s' = s) ∧
    (∀ hashFn i s' r, createUser hashFn s i = (s', Except.ok r) →
      s'.users = s.users ++ [r] ∧ UnchangedExceptUsers s s') ∧
    (∀ i s' e, createCourse s i = (s', Except.error e) → s' = s) ∧
    (∀ i s' r, createCourse s i = (s', Except.ok r) →
      s'.courses = s.courses ++ [r] ∧ UnchangedExceptCourses s s') ∧
    (∀ i s' e, enrollInCourse s i = (s', Except.error e) → s' = s) ∧
    (∀ i s' r, enrollInCourse s i = (s', Except.ok r) →
      s'.enrollments = s.enrollments ++ [r] ∧ UnchangedExceptEnrollments s s') ∧
    (∀ i s' e, createLearningMaterial s i = (s', Except.error e) → s' = s) ∧
    (∀ i s' r, createLearningMaterial s i = (s', Except.ok r) →
      s'.materials = s.materials ++ [r] ∧ UnchangedExceptMaterials s s') ∧
    (∀ i s' e, createAssignment s i = (s', Except.error e) → s' = s) ∧
    (∀ i s' r, createAssignment s i = (s', Except.ok r) →
      s'.assignments = s.assignments ++ [r] ∧ UnchangedExceptAssignments s s') ∧
    (∀ i s' e, createAssignmentSubmission s i = (s', Except.error e) → s' = s) ∧
    (∀ i s' r, createAssignmentSubmission s i = (s', Except.ok r) →
      ∃ row, s'.submissions = s.submissions ++ [row] ∧
        r = toApiSubmission row ∧ UnchangedExceptSubmissions s s') ∧
    (∀ i s' e, createPortfolioProject s i = (s', Except.error e) → s' = s) ∧
    (∀ i s' r, createPortfolioProject s i = (s', Except.ok r) →
      s'.portfolios = s.portfolios ++ [r] ∧ UnchangedExceptPortfolios s s') ∧
    (∀ i s' e, updateUser s i = (s', Except.error e) → s' = s) ∧
    (∀ i s' r, updateUser s i = (s', Except.ok r) →
      UnchangedExceptUsers s s' ∧ s'.users.length = s.users.length ∧
      ∀ j : Fin s.users.length, ∀ h2 : j.val < s'.users.length,
        (s.users.get j).id ≠ i.id →
          s'.users.get ⟨j.val, h2⟩ = s.users.get j) ∧
    (∀ i s' e, updateCourse s i = (s', Except.error e) → s' = s) ∧
    (∀ i s' r, updateCourse s i = (s', Except.ok r) →
      UnchangedExceptCourses s s' ∧ s'.courses.length = s.courses.length ∧
      ∀ j : Fin s.courses.length, ∀ h2 : j.val < s'.courses.length,
        (s.courses.get j).id ≠ i.id →
          s'.courses.get ⟨j.val, h2⟩ = s.courses.get j) ∧
    (∀ i s' e, gradeAssignmentSubmission s i = (s', Except.error e) → s' = s) ∧
    (∀ i s' r, gradeAssignmentSubmission s i = (s', Except.ok r) →
      UnchangedExceptSubmissions s s' ∧
      s'.submissions.length = s.submissions.length ∧
      ∀ j : Fin s.submissions.length, ∀ h2 : j.val < s'.submissions.length,
        (s.submissions.get j).id ≠ i.id →
          s'.submissions.get ⟨j.val, h2⟩ = s.submissions.get j) := by
  refine ⟨?_, ?_, ?_, ?_, ?_, ?_, ?_, ?_, ?_, ?_, ?_, ?_, ?_, ?_, ?_, ?_,
    ?_, ?_, ?_, ?_⟩
  · intro hashFn i s' e h
    rcases createUser_cases hashFn s i with ⟨e', he⟩ | ⟨row, he⟩ <;> rw [he] at h <;>
      injection h with h1 h2
    · exact h1.symm
    · exact Except.noConfusion h2
  · intro hashFn i s' r h
    rcases createUser_cases hashFn s i with ⟨e', he⟩ | ⟨row, he⟩ <;> rw [he] at h <;>
      injection h with h1 h2
    · exact Except.noConfusion h2
    · injection h2 with h3
      subst h3
      subst h1
      exact ⟨rfl, rfl, rfl, rfl, rfl, rfl, rfl⟩
  · intro i s' e h
    rcases createCourse_cases s i with ⟨e', he⟩ | ⟨row, he⟩ <;> rw [he] at h <;>
      injection h with h1 h2
    · exact h1.symm
    · exact Except.noConfusion h2
  · intro i s' r h
    rcases createCourse_cases s i with ⟨e', he⟩ | ⟨row, he⟩ <;> rw [he] at h <;>
      injection h with h1 h2
    · exact Except.noConfusion h2
    · injection h2 with h3
      subst h3
      subst h1
      exact ⟨rfl, rfl, rfl, rfl, rfl, rfl, rfl⟩
  · intro i s' e h
    rcases enrollInCourse_cases s i with ⟨e', he⟩ | ⟨row, he⟩ <;> rw [he] at h <;>
      injection h with h1 h2
    · exact h1.symm
    · exact Except.noConfusion h2
  · intro i s' r h
    rcases enrollInCourse_cases s i with ⟨e', he⟩ | ⟨row, he⟩ <;> rw [he] at h <;>
      injection h with h1 h2
    · exact Except.noConfusion h2
    · injection h2 with h3
      subst h3
      subst h1
      exact ⟨rfl, rfl, rfl, rfl, rfl, rfl, rfl⟩
  · intro i s' e h
    rcases createLearningMaterial_cases s i with ⟨e', he⟩ | ⟨row, he⟩ <;>
      rw [he] at h <;> injection h with h1 h2
    · exact h1.symm
    · exact Except.noConfusion h2
  · intro i s' r h
    rcases createLearningMaterial_cases s i with ⟨e', he⟩ | ⟨row, he⟩ <;>
      rw [he] at h <;> injection h with h1 h2
    · exact Except.noConfusion h2
    · injection h2 with h3
      subst h3
      subst h1
      exact ⟨rfl, rfl, rfl, rfl, rfl, rfl, rfl⟩
  · intro i s' e h
    rcases createAssignment_cases s i with ⟨e', he⟩ | ⟨row, he⟩ <;>
      rw [he] at h <;> injection h with h1 h2
    · exact h1.symm
    · exact Except.noConfusion h2
  · intro i s' r h
    rcases createAssignment_cases s i with ⟨e', he⟩ | ⟨row, he⟩ <;>
      rw [he] at h <;> injection h with h1 h2
    · exact Except.noConfusion h2
    · injection h2 with h3
      subst h3
      subst h1
      exact ⟨rfl, rfl, rfl, rfl, rfl, rfl, rfl⟩
  · intro i s' e h
    rcases createAssignmentSubmission_cases s i with ⟨e', he⟩ | ⟨row, he⟩ <;>
      rw [he] at h <;> injection h with h1 h2
    · exact h1.symm
    · exact Except.noConfusion h2
  · intro i s' r h
    rcases createAssignmentSubmission_cases s i with ⟨e', he⟩ | ⟨row, he⟩ <;>
      rw [he] at h <;> injection h with h1 h2
    · exact Except.noConfusion h2
    · injection h2 with h3
      subst h1
      exact ⟨row, rfl, h3.symm, rfl, rfl, rfl, rfl, rfl, rfl⟩
  · intro i s' e h
    rcases createPortfolioProject_cases s i with ⟨e', he⟩ | ⟨row, he⟩ <;>
      rw [he] at h <;> injection h with h1 h2
    · exact h1.symm
    · exact Except.noConfusion h2
  · intro i s' r h
    rcases createPortfolioProject_cases s i with ⟨e', he⟩ | ⟨row, he⟩ <;>
      rw [he] at h <;> injection h with h1 h2
    · exact Except.noConfusion h2
    · injection h2 with h3
      subst h3
      subst h1
      exact ⟨rfl, rfl, rfl, rfl, rfl, rfl, rfl⟩
  · intro i s' e h
    rcases updateUser_cases s i with he | ⟨u, he⟩ <;> rw [he] at h <;>
      injection h with h1 h2
    · exact h1.symm
    · exact Except.noConfusion h2
  · intro i s' r h
    rcases updateUser_cases s i with he | ⟨u, he⟩ <;> rw [he] at h <;>
      injection h with h1 h2
    · exact Except.noConfusion h2
    · subst h1
      refine ⟨⟨rfl, rfl, rfl, rfl, rfl, rfl⟩, by simp, ?_⟩
      intro j hj hne
      rw [List.get_eq_getElem] at hne
      simp only [List.get_eq_getElem, List.getElem_map]
      rw [if_neg (by simpa using hne)]
  · intro i s' e h
    rcases updateCourse_cases s i with he | ⟨c, he⟩ <;> rw [he] at h <;>
      injection h with h1 h2
    · exact h1.symm
    · exact Except.noConfusion h2
  · intro i s' r h
    rcases updateCourse_cases s i with he | ⟨c, he⟩ <;> rw [he] at h <;>
      injection h with h1 h2
    · exact Except.noConfusion h2
    · subst h1
      refine ⟨⟨rfl, rfl, rfl, rfl, rfl, rfl⟩, by simp, ?_⟩
      intro j hj hne
      rw [List.get_eq_getElem] at hne
      simp only [List.get_eq_getElem, List.getElem_map]
      rw [if_neg (by simpa using hne)]
  · intro i s' e h
    rcases gradeAssignmentSubmission_cases s i with he | ⟨r0, he⟩ <;>
      rw [he] at h <;> injection h with h1 h2
    · exact h1.symm
    · exact Except.noConfusion h2
  · intro i s' r h
    rcases gradeAssignmentSubmission_cases s i with he | ⟨r0, he⟩ <;>
      rw [he] at h <;> injection h with h1 h2
    · exact Except.noConfusion h2
    · subst h1
      refine ⟨⟨rfl, rfl, rfl, rfl, rfl, rfl⟩, by simp, ?_⟩
      intro j hj hne
      rw [List.get_eq_getElem] at hne
      simp only [List.get_eq_getElem, List.getElem_map]
      rw [if_neg (by simpa using hne)]

/-- Witness for C8: enrolling student 1 in published course 10 appends
exactly that one row and leaves every other table untouched. -/
theorem mutations_atomic_witness :
    (enrollInCourse enrollReadyStore ⟨10, 1⟩).1.enrollments =
      enrollReadyStore.enrollments ++
        [{ id := 1, course_id := 10, student_id := 1, enrolled_at := 5 }] ∧
    UnchangedExceptEnrollments enrollReadyStore
      (enrollInCourse enrollReadyStore ⟨10, 1⟩).1 :=
  (mutations_atomic enrollReadyStore).2.2.2.2.2.1 ⟨10, 1⟩
    (enrollInCourse enrollReadyStore ⟨10, 1⟩).1
    { id := 1, course_id := 10, student_id := 1, enrolled_at := 5 } rfl

/-- Counterexample to C9 as stated: `racedStore` — a state produced when the
application-level read-then-write check is bypassed by a race — satisfies
every constraint the drizzle schema declares, yet holds two enrollment rows
sharing `(course_id, student_id)` and two submission rows sharing
`(assignment_id, student_id)`: part_009 declares no composite unique index
on either table, so the store does not reject the second write. -/
theorem schema_pair_duplicates_accepted_counterexample :
    schemaAccepts racedStore ∧
    (∃ e1 ∈ racedStore.enrollments, ∃ e2 ∈ racedStore.enrollments,
      e1.id ≠ e2.id ∧ e1.course_id = e2.course_id ∧
      e1.student_id = e2.student_id) ∧
    (∃ x1 ∈ racedStore.submissions, ∃ x2 ∈ racedStore.submissions,
      x1.id ≠ x2.id ∧ x1.assignment_id = x2.assignment_id ∧
      x1.student_id = x2.student_id) := by
  refine ⟨by decide, ?_, ?_⟩
  · exact ⟨{ id := 1, course_id := 10, student_id := 1, enrolled_at := 3 },
      by decide,
      { id := 2, course_id := 10, student_id := 1, enrolled_at := 3 },
      by decide, by decide, rfl, rfl⟩
  · exact ⟨{ sampleSubmission with id := 1 }, by decide,
      { sampleSubmission with id := 2 }, by decide, by decide, rfl, rfl⟩

/-- C9 (amended): of the three uniqueness invariants only the email one is
backed by a declared unique index — in every store-accepted state no two
user rows share an email — while the enrollments and submissions tables
declare no composite unique index, so a duplicate pair written past the
application-level check is accepted by the store. -/
theorem schema_unique_email_only (s : Store) (h : schemaAccepts s) :
    (s.users.map (fun u => u.email)).Nodup ∧
    (∀ u1 ∈ s.users, ∀ u2 ∈ s.users, u1 ≠ u2 → u1.email ≠ u2.email) := by
  obtain ⟨-, hemail, -⟩ := h
  refine ⟨hemail, ?_⟩
  intro u1 h1 u2 h2 hne heq
  exact hne (List.inj_on_of_nodup_map hemail h1 h2 heq)

/-- Witness for C9's amended theorem at the raced store: even there, user
emails are pairwise distinct. -/
theorem schema_unique_email_only_witness :
    (racedStore.users.map (fun u => u.email)).Nodup ∧
    (∀ u1 ∈ racedStore.users, ∀ u2 ∈ racedStore.users,
      u1 ≠ u2 → u1.email ≠ u2.email) :=
  schema_unique_email_only racedStore (by decide)

/-- C10: `authenticateUser` returns null — never an error — whenever the
email matches no user, the matched user is inactive, or the hash of the
supplied password differs from the stored credential; in particular an
inactive user with fully correct credentials cannot log in.  (The handler
catches nothing itself: a failed login is the `none` value, as the
`Option User` result type shows.) -/
theorem authenticateUser_null_paths (hashFn : String → String)
    (s : Store) (i : LoginInput) :
    (s.users.filter (fun u => u.email == i.email) = [] →
      authenticateUser hashFn s i = none) ∧
    (∀ u us, s.users.filter (fun u => u.email == i.email) = u :: us →
      (u.is_active = false → authenticateUser hashFn s i = none) ∧
      (hashFn i.password ≠ u.password_hash →
        authenticateUser hashFn s i = none) ∧
      (u.is_active = true → hashFn i.password = u.password_hash →
        authenticateUser hashFn s i = some u)) := by
  refine ⟨?_, ?_⟩
  · intro h
    unfold authenticateUser
    rw [h]
  · intro u us hu
    refine ⟨?_, ?_, ?_⟩
    · intro hact
      unfold authenticateUser
      rw [hu]
      simp only []
      rw [if_pos hact]
    · intro hne
      unfold authenticateUser
      rw [hu]
      simp only []
      cases hb : u.is_active with
      | false => rw [if_pos rfl]
      | true => rw [if_neg (by simp), if_pos hne]
    · intro hact hok
      unfold authenticateUser
      rw [hu]
      simp only []
      rw [if_neg (by simp [hact]), if_neg (by simp [hok])]

/-- Witness for C10: an inactive teacher whose supplied password hashes to
exactly the stored credential (identity hash) still gets `null`. -/
theorem authenticateUser_null_paths_witness :
    authenticateUser (fun p => p) inactiveUserStore
      { email := "sleeper@test.com", password := "pw123" } = none :=
  ((authenticateUser_null_paths (fun p => p) inactiveUserStore
    { email := "sleeper@test.com", password := "pw123" }).2
    inactiveUser [] (by decide)).1 rfl
